import Mathlib

/-!
Verification development for the `diesel-database-tester` crate: an ephemeral
database lifecycle manager for test suites.  The Rust source (`src/lib.rs`)
is shallowly embedded: every externally visible step (opening a connection,
executing a SQL statement, reverting or applying migrations) is recorded as
an `Action`, the environment's success or failure of each step is an input
(`World`), and each lifecycle operation returns the trace of attempted
actions together with its result (`Except` models the Rust panics and
`Result` errors).
-/

namespace DieselDatabaseTester

/-- The `TestDb` struct from the source: server coordinates plus the
generated unique database name. -/
structure TestDb where
  host : String
  port : Nat
  user : String
  password : String
  dbname : String
deriving DecidableEq, Repr

/-- Embedding of `TestDb::server_url`: the administrative URL, with the
password component omitted when the password is empty. -/
def TestDb.server_url (t : TestDb) : String :=
  if t.password.isEmpty then
    "postgres://" ++ t.user ++ "@" ++ t.host ++ ":" ++ toString t.port
  else
    "postgres://" ++ t.user ++ ":" ++ t.password ++ "@" ++ t.host ++ ":" ++ toString t.port

/-- Embedding of `TestDb::url`: the operational URL of the ephemeral
database. -/
def TestDb.url (t : TestDb) : String :=
  t.server_url ++ "/" ++ t.dbname

/-! ### Textual encoding of the generated identity

`TestDb::new` names the database `format!("test_{}", Uuid::new_v4())`.  The
`uuid` crate is not part of `src/`; its `Display` encoding (lowercase
hex of the 128-bit value, grouped 8-4-4-4-12 with hyphens) is modelled
below from the spec. -/

/-- Lowercase hexadecimal digit character for a value below 16. -/
def hexChar (d : Nat) : Char :=
  if d < 10 then Char.ofNat (48 + d)
  else if d < 16 then Char.ofNat (87 + d)
  else Char.ofNat 48

/-- The `j`-th little-endian base-16 digit of `n`. -/
def nib (n j : Nat) : Nat := n / 16 ^ j % 16

/-- A run of `len` hex characters of the 32-digit big-endian rendering of a
128-bit value, starting at big-endian position `start`. -/
def hexSeg (n start len : Nat) : List Char :=
  (List.range len).map fun i => hexChar (nib n (31 - (start + i)))

/-- Modelled from the spec: the `uuid` crate's hyphenated textual encoding
of a 128-bit identifier (`8-4-4-4-12` groups of lowercase hex digits); the
crate itself is an external collaborator, not in `src/`. -/
def uuidChars (n : Nat) : List Char :=
  hexSeg n 0 8 ++ '-' :: hexSeg n 8 4 ++ '-' :: hexSeg n 12 4
    ++ '-' :: hexSeg n 16 4 ++ '-' :: hexSeg n 20 12

/-- The hyphenated UUID string of a 128-bit value. -/
def uuidString (n : Nat) : String := String.mk (uuidChars n)

/-- Embedding of `format!("test_{}", uuid)`: the generated database name. -/
def mkDbname (n : Nat) : String := "test_" ++ uuidString n

/-! ### Effect traces -/

/-- One externally visible step of the lifecycle manager. -/
inductive Action where
  /-- `establish_connection(url)` was attempted. -/
  | connect (url : String)
  /-- `diesel::sql_query(stmt).execute(..)` was attempted on the connection
  opened against `url`. -/
  | exec (url : String) (stmt : String)
  /-- `revert_all_migrations` was attempted on the connection to `url`. -/
  | revertAll (url : String)
  /-- `run_pending_migrations` was attempted on the connection to `url`. -/
  | runPending (url : String)
deriving DecidableEq, Repr

/-- The ways construction or teardown can abort (Rust panics: `expect`,
`unwrap`, and the panic propagated through `join()`). -/
inductive Panic where
  | connectFailed (url : String)
  | createFailed
  | migrationFailed (err : String)
  | terminateFailed
  | dropFailed
deriving DecidableEq, Repr

/-- The environment: which connections can be established, which SQL
statements succeed, and which migration operations fail (with the
underlying database error message). -/
structure World where
  connectOk : String → Bool
  execOk : String → String → Bool
  revertErr : String → Option String
  pendingErr : String → Option String

/-- The SQL text issued by `TestDb::new`. -/
def createStmt (db : String) : String :=
  "CREATE DATABASE \"" ++ db ++ "\""

/-- The SQL text issued first by `TestDb::drop`: targeted server-side
termination of every backend whose `datname` is the ephemeral database,
except the terminator's own backend. -/
def terminateStmt (db : String) : String :=
  "SELECT pg_terminate_backend(pid) FROM pg_stat_activity WHERE  pid <> pg_backend_pid() and datname = \x27" ++ db ++ "\x27"

/-- The SQL text issued second by `TestDb::drop`. -/
def dropStmt (db : String) : String :=
  "DROP DATABASE \"" ++ db ++ "\""

/-! ### Migration runner -/

/-- Modelled from the spec: `diesel_migrations`'s `revert_all_migrations`
(an external collaborator, not in `src/`) reverts every migration currently
recorded as applied, leaving the clean baseline. -/
def revert_all_migrations (_applied : List Nat) : List Nat := []

/-- Modelled from the spec: `diesel_migrations`'s `run_pending_migrations`
(an external collaborator, not in `src/`) applies every not-yet-applied
migration of the embedded set, in the set's ascending order. -/
def run_pending_migrations (migs applied : List Nat) : List Nat :=
  applied ++ migs.filter (fun v => !(applied.contains v))

/-- Embedding of `run_migrations`: revert all applied migrations, then run
the pending ones; either step failing aborts the run with the underlying
error (`?` in the source).  `applied` is the migration history recorded on
the connected database; the successful result is the final history. -/
def run_migrations (w : World) (url : String) (migs applied : List Nat) :
    List Action × Except String (List Nat) :=
  match w.revertErr url with
  | some e => ([Action.revertAll url], Except.error e)
  | none =>
    match w.pendingErr url with
    | some e => ([Action.revertAll url, Action.runPending url], Except.error e)
    | none =>
      ([Action.revertAll url, Action.runPending url],
        Except.ok (run_pending_migrations migs (revert_all_migrations applied)))

/-! ### Lifecycle operations -/

/-- Embedding of `TestDb::new`.  `uuid` is the random 128-bit identifier
drawn by `Uuid::new_v4`; `migs` is the embedded migration set
(`MIGRATIONS`); `_migration_path` is the constructor argument the source
never reads.  A brand-new database has an empty migration history, so the
runner starts from `[]`.  The returned trace lists the attempted steps in
order; the result is the constructed `TestDb` or the panic that aborted
construction. -/
def TestDb.new (w : World) (migs : List Nat) (host : String) (port : Nat)
    (user password : String) (uuid : Nat) (_migration_path : String) :
    List Action × Except Panic TestDb :=
  let dbname := mkDbname uuid
  let tdb : TestDb := ⟨host, port, user, password, dbname⟩
  let server_url := tdb.server_url
  let url := tdb.url
  match w.connectOk server_url with
  | false =>
    ([Action.connect server_url], Except.error (Panic.connectFailed server_url))
  | true =>
    match w.execOk server_url (createStmt dbname) with
    | false =>
      ([Action.connect server_url, Action.exec server_url (createStmt dbname)],
        Except.error Panic.createFailed)
    | true =>
      match w.connectOk url with
      | false =>
        ([Action.connect server_url, Action.exec server_url (createStmt dbname),
          Action.connect url], Except.error (Panic.connectFailed url))
      | true =>
        let m := run_migrations w url migs []
        ([Action.connect server_url, Action.exec server_url (createStmt dbname),
          Action.connect url] ++ m.1,
          match m.2 with
          | Except.error e => Except.error (Panic.migrationFailed e)
          | Except.ok _ => Except.ok tdb)

/-- Embedding of `impl Drop for TestDb`: open an administrative connection,
terminate the other backends connected to the database, then drop it; each
step panics on failure (`expect`), and the panic propagates to the calling
thread through `join()`. -/
def TestDb.drop (w : World) (t : TestDb) : List Action × Except Panic Unit :=
  let server_url := t.server_url
  let db_name := t.dbname
  match w.connectOk server_url with
  | false =>
    ([Action.connect server_url], Except.error (Panic.connectFailed server_url))
  | true =>
    match w.execOk server_url (terminateStmt db_name) with
    | false =>
      ([Action.connect server_url, Action.exec server_url (terminateStmt db_name)],
        Except.error Panic.terminateFailed)
    | true =>
      match w.execOk server_url (dropStmt db_name) with
      | false =>
        ([Action.connect server_url, Action.exec server_url (terminateStmt db_name),
          Action.exec server_url (dropStmt db_name)], Except.error Panic.dropFailed)
      | true =>
        ([Action.connect server_url, Action.exec server_url (terminateStmt db_name),
          Action.exec server_url (dropStmt db_name)], Except.ok ())

/-- The full success trace of `TestDb::drop`. -/
def dropFullTrace (t : TestDb) : List Action :=
  [Action.connect t.server_url, Action.exec t.server_url (terminateStmt t.dbname),
   Action.exec t.server_url (dropStmt t.dbname)]

/-- The full success trace of `TestDb::new`. -/
def newFullTrace (t : TestDb) : List Action :=
  [Action.connect t.server_url, Action.exec t.server_url (createStmt t.dbname),
   Action.connect t.url, Action.revertAll t.url, Action.runPending t.url]

/-- A trace is an initial segment of another: the operation performed the
listed steps in the listed order, stopping at the first failure. -/
def initSeg {α : Type} (tr full : List α) : Prop := ∃ k, tr = full.take k

/-- The `TestDb` value built by `TestDb::new` from the coordinates and the
drawn 128-bit identifier. -/
def mkTdb (host : String) (port : Nat) (user password : String) (uuid : Nat) : TestDb :=
  ⟨host, port, user, password, mkDbname uuid⟩

/-- Concrete environment in which every step succeeds. -/
def wOk : World :=
  ⟨fun _ => true, fun _ _ => true, fun _ => none, fun _ => none⟩

/-- Concrete environment in which no connection can be established. -/
def wDown : World :=
  ⟨fun _ => false, fun _ _ => true, fun _ => none, fun _ => none⟩

/-- Concrete environment in which the revert step of the migration run
fails with error message `boom`. -/
def wRevertFail : World :=
  ⟨fun _ => true, fun _ _ => true, fun _ => some "boom", fun _ => none⟩

theorem list_map_pointwise {α β : Type} {f g : α → β} :
    ∀ l : List α, l.map f = l.map g → ∀ a ∈ l, f a = g a := by
  intro l
  induction l with
  | nil => simp
  | cons x xs ih =>
    intro h a ha
    simp only [List.map_cons, List.cons.injEq] at h
    rcases List.mem_cons.mp ha with h1 | h1
    · subst h1; exact h.1
    · exact ih h.2 a h1

theorem list_map_congr {α β : Type} {f g : α → β} :
    ∀ l : List α, (∀ a ∈ l, f a = g a) → l.map f = l.map g := by
  intro l
  induction l with
  | nil => simp
  | cons x xs ih =>
    intro h
    simp only [List.map_cons, List.cons.injEq]
    exact ⟨h x (List.mem_cons_self x xs), ih fun a ha => h a (List.mem_cons_of_mem x ha)⟩

theorem hexChar_inj_below : ∀ d < 16, ∀ e < 16, hexChar d = hexChar e → d = e := by
  decide

theorem nib_lt (n j : Nat) : nib n j < 16 :=
  Nat.mod_lt _ (by norm_num)

theorem hexSeg_length (n start len : Nat) : (hexSeg n start len).length = len := by
  simp [hexSeg]

theorem ofDigits_nib (n : Nat) : ∀ k : Nat,
    Nat.ofDigits 16 ((List.range k).map fun j => nib n j) = n % 16 ^ k := by
  intro k
  induction k with
  | zero => simp [Nat.mod_one]
  | succ k ih =>
    rw [List.range_succ, List.map_append, Nat.ofDigits_append]
    simp only [List.map_cons, List.map_nil, Nat.ofDigits_singleton,
      List.length_map, List.length_range]
    rw [ih, Nat.mod_pow_succ]
    rfl

theorem uuidChars_length (n : Nat) : (uuidChars n).length = 36 := by
  simp [uuidChars, hexSeg]

theorem run_migrations_ok_val (w : World) (url : String) (migs applied s : List Nat)
    (h : (run_migrations w url migs applied).2 = Except.ok s) :
    s = run_pending_migrations migs (revert_all_migrations applied) := by
  unfold run_migrations at h
  cases h1 : w.revertErr url <;> rw [h1] at h
  · cases h2 : w.pendingErr url <;> rw [h2] at h
    · injection h with h1
      exact h1.symm
    · exact Except.noConfusion h
  · exact Except.noConfusion h

theorem url_ne_server_url (t : TestDb) : t.url ≠ t.server_url := by
  intro h
  have hl := congrArg String.length h
  rw [TestDb.url, String.length_append, String.length_append] at hl
  have h1 : ("/" : String).length = 1 := rfl
  omega

/-- C7.  The administrative URL renders the password component only when
the password is nonempty — an empty password leaves no colon and no empty
credential segment — and the operational URL is exactly the administrative
URL followed by a slash and the database name. -/
theorem c7_url_convention (host : String) (port : Nat) (user password dbname : String) :
    (password = "" →
      TestDb.server_url ⟨host, port, user, password, dbname⟩
        = "postgres://" ++ user ++ "@" ++ host ++ ":" ++ toString port)
    ∧ (password ≠ "" →
      TestDb.server_url ⟨host, port, user, password, dbname⟩
        = "postgres://" ++ user ++ ":" ++ password ++ "@" ++ host ++ ":" ++ toString port)
    ∧ TestDb.url ⟨host, port, user, password, dbname⟩
        = TestDb.server_url ⟨host, port, user, password, dbname⟩ ++ "/" ++ dbname := by
  refine ⟨?_, ?_, rfl⟩ <;> intro h <;>
    simp [TestDb.server_url, String.isEmpty_iff, h]

theorem c7_url_convention_witness :
    TestDb.server_url ⟨"localhost", 5432, "u", "", "d"⟩ = "postgres://u@localhost:5432"
    ∧ TestDb.server_url ⟨"localhost", 5432, "u", "pw", "d"⟩
        = "postgres://u:pw@localhost:5432" :=
  ⟨(c7_url_convention "localhost" 5432 "u" "" "d").1 rfl,
   (c7_url_convention "localhost" 5432 "u" "pw" "d").2.1 (by decide)⟩

/-- C10.  The `_migration_path` constructor argument is never read: two
constructions differing only in it produce the same trace of SQL
statements and the same result (name, URLs and all). -/
theorem c10_migration_path_ignored (w : World) (migs : List Nat) (host : String)
    (port : Nat) (user password : String) (uuid : Nat) (mp1 mp2 : String) :
    TestDb.new w migs host port user password uuid mp1
      = TestDb.new w migs host port user password uuid mp2 := rfl

/-- C1.  Teardown of a ready instance first opens the administrative
connection, then terminates every other backend connected to the database
by name, and only then issues `DROP DATABASE`: its trace is always an
initial segment of that three-step sequence (so the drop is never issued
before the targeted termination), and a teardown that completes performed
all three steps. -/
theorem c1_teardown_order (w : World) (t : TestDb) :
    (TestDb.drop w t).1.head? = some (Action.connect t.server_url)
    ∧ initSeg (TestDb.drop w t).1 (dropFullTrace t)
    ∧ ((TestDb.drop w t).2 = Except.ok () → (TestDb.drop w t).1 = dropFullTrace t) := by
  unfold TestDb.drop dropFullTrace
  dsimp only
  cases h1 : w.connectOk t.server_url
  · exact ⟨rfl, ⟨1, rfl⟩, by simp⟩
  · cases h2 : w.execOk t.server_url (terminateStmt t.dbname)
    · exact ⟨rfl, ⟨2, rfl⟩, by simp⟩
    · cases h3 : w.execOk t.server_url (dropStmt t.dbname)
      · exact ⟨rfl, ⟨3, rfl⟩, by simp⟩
      · exact ⟨rfl, ⟨3, rfl⟩, fun _ => rfl⟩

theorem c1_teardown_order_witness :
    (TestDb.drop wOk ⟨"h", 1, "u", "p", "d"⟩).2 = Except.ok ()
    ∧ (TestDb.drop wOk ⟨"h", 1, "u", "p", "d"⟩).1 = dropFullTrace ⟨"h", 1, "u", "p", "d"⟩ :=
  ⟨rfl, (c1_teardown_order wOk ⟨"h", 1, "u", "p", "d"⟩).2.2 rfl⟩

/-- C6.  Teardown completes without error exactly when all three of its
steps succeed; whenever the termination query or the drop fails, the
result is a surfaced fatal error, never a silent completion. -/
theorem c6_teardown_failures_surface (w : World) (t : TestDb) :
    ((TestDb.drop w t).2 = Except.ok () ↔
      w.connectOk t.server_url = true
        ∧ w.execOk t.server_url (terminateStmt t.dbname) = true
        ∧ w.execOk t.server_url (dropStmt t.dbname) = true)
    ∧ ((TestDb.drop w t).2 ≠ Except.ok () →
        ∃ p, (TestDb.drop w t).2 = Except.error p) := by
  unfold TestDb.drop
  dsimp only
  cases h1 : w.connectOk t.server_url
  · exact ⟨by simp, fun _ => ⟨_, rfl⟩⟩
  · cases h2 : w.execOk t.server_url (terminateStmt t.dbname)
    · exact ⟨by simp, fun _ => ⟨_, rfl⟩⟩
    · cases h3 : w.execOk t.server_url (dropStmt t.dbname)
      · exact ⟨by simp, fun _ => ⟨_, rfl⟩⟩
      · exact ⟨by simp, fun h => absurd rfl h⟩

theorem c6_teardown_failures_surface_witness :
    ∃ p, (TestDb.drop wDown ⟨"h", 1, "u", "p", "d"⟩).2 = Except.error p :=
  (c6_teardown_failures_surface wDown ⟨"h", 1, "u", "p", "d"⟩).2
    (fun h => Except.noConfusion h)

/-- C2.  Construction computes the unique name, then opens the
administrative connection, issues `CREATE DATABASE` on it, opens the
operational connection to the new database, and only then runs the
migration runner: the trace is always an initial segment of that sequence,
a construction that returns performed all of it, every SQL statement of
construction is issued over the administrative (server-level) connection,
and the operational URL is distinct from the administrative one. -/
theorem c2_construction_order (w : World) (migs : List Nat) (host : String) (port : Nat)
    (user password : String) (uuid : Nat) (mp : String) :
    (TestDb.new w migs host port user password uuid mp).1.head?
        = some (Action.connect (mkTdb host port user password uuid).server_url)
    ∧ initSeg (TestDb.new w migs host port user password uuid mp).1
        (newFullTrace (mkTdb host port user password uuid))
    ∧ (∀ t, (TestDb.new w migs host port user password uuid mp).2 = Except.ok t →
        t = mkTdb host port user password uuid
        ∧ (TestDb.new w migs host port user password uuid mp).1
            = newFullTrace (mkTdb host port user password uuid))
    ∧ (∀ u s, Action.exec u s ∈ (TestDb.new w migs host port user password uuid mp).1 →
        u = (mkTdb host port user password uuid).server_url
        ∧ s = createStmt (mkDbname uuid))
    ∧ (mkTdb host port user password uuid).url
        ≠ (mkTdb host port user password uuid).server_url := by
  have hfull : ∀ u s,
      Action.exec u s ∈ newFullTrace (mkTdb host port user password uuid) →
      u = (mkTdb host port user password uuid).server_url
        ∧ s = createStmt (mkDbname uuid) := by
    intro u s hm
    simp only [newFullTrace, List.mem_cons, List.not_mem_nil, or_false] at hm
    rcases hm with h | h | h | h | h
    · exact Action.noConfusion h
    · injection h with h1 h2; exact ⟨h1, h2⟩
    · exact Action.noConfusion h
    · exact Action.noConfusion h
    · exact Action.noConfusion h
  unfold TestDb.new
  dsimp only
  cases h1 : w.connectOk (TestDb.server_url ⟨host, port, user, password, mkDbname uuid⟩)
  · exact ⟨rfl, ⟨1, rfl⟩, fun t ht => Except.noConfusion ht,
      fun u s hm => hfull u s (List.take_subset 1 _ hm), url_ne_server_url _⟩
  · cases h2 : w.execOk (TestDb.server_url ⟨host, port, user, password, mkDbname uuid⟩)
        (createStmt (mkDbname uuid))
    · exact ⟨rfl, ⟨2, rfl⟩, fun t ht => Except.noConfusion ht,
        fun u s hm => hfull u s (List.take_subset 2 _ hm), url_ne_server_url _⟩
    · cases h3 : w.connectOk (TestDb.url ⟨host, port, user, password, mkDbname uuid⟩)
      · exact ⟨rfl, ⟨3, rfl⟩, fun t ht => Except.noConfusion ht,
          fun u s hm => hfull u s (List.take_subset 3 _ hm), url_ne_server_url _⟩
      · dsimp only
        unfold run_migrations
        cases h4 : w.revertErr (TestDb.url ⟨host, port, user, password, mkDbname uuid⟩)
        · cases h5 : w.pendingErr (TestDb.url ⟨host, port, user, password, mkDbname uuid⟩)
          · exact ⟨rfl, ⟨5, rfl⟩,
              fun t ht => by injection ht with h; exact ⟨h.symm, rfl⟩,
              fun u s hm => hfull u s (List.take_subset 5 _ hm), url_ne_server_url _⟩
          · exact ⟨rfl, ⟨5, rfl⟩, fun t ht => Except.noConfusion ht,
              fun u s hm => hfull u s (List.take_subset 5 _ hm), url_ne_server_url _⟩
        · exact ⟨rfl, ⟨4, rfl⟩, fun t ht => Except.noConfusion ht,
            fun u s hm => hfull u s (List.take_subset 4 _ hm), url_ne_server_url _⟩

theorem c2_construction_order_witness :
    (TestDb.new wOk [] "h" 1 "u" "p" 0 "m").2 = Except.ok (mkTdb "h" 1 "u" "p" 0)
    ∧ (TestDb.new wOk [] "h" 1 "u" "p" 0 "m").1 = newFullTrace (mkTdb "h" 1 "u" "p" 0) := by
  have h := (c2_construction_order wOk [] "h" 1 "u" "p" 0 "m").2.2.1
    (mkTdb "h" 1 "u" "p" 0) rfl
  exact ⟨rfl, h.2⟩

/-- C3.  The migration runner always attempts the revert of the recorded
history first — its trace starts with the revert step and does not depend
on the recorded history, so the revert happens even on a freshly created
database where it is a no-op — the apply step can only follow the revert,
and a successful run ends with exactly the embedded migration set applied
in its (ascending) order. -/
theorem c3_revert_then_apply (w : World) (url : String) (migs applied : List Nat) :
    (run_migrations w url migs applied).1.head? = some (Action.revertAll url)
    ∧ initSeg (run_migrations w url migs applied).1
        [Action.revertAll url, Action.runPending url]
    ∧ (∀ s, (run_migrations w url migs applied).2 = Except.ok s → s = migs)
    ∧ (run_migrations w url migs applied).1 = (run_migrations w url migs []).1 := by
  have hclean : run_pending_migrations migs (revert_all_migrations applied) = migs := by
    simp [run_pending_migrations, revert_all_migrations]
  unfold run_migrations
  cases h1 : w.revertErr url
  · cases h2 : w.pendingErr url
    · exact ⟨rfl, ⟨2, rfl⟩,
        fun s hs => by injection hs with h; rw [← h, hclean], rfl⟩
    · exact ⟨rfl, ⟨2, rfl⟩, fun s hs => Except.noConfusion hs, rfl⟩
  · exact ⟨rfl, ⟨1, rfl⟩, fun s hs => Except.noConfusion hs, rfl⟩

theorem c3_revert_then_apply_witness :
    (run_migrations wOk "u" [3, 7] [5]).1.head? = some (Action.revertAll "u")
    ∧ ([3, 7] : List Nat) = [3, 7] :=
  ⟨(c3_revert_then_apply wOk "u" [3, 7] [5]).1,
   (c3_revert_then_apply wOk "u" [3, 7] [5]).2.2.1 [3, 7] rfl⟩

/-- C4.  When the administrative connection cannot be established,
construction aborts with that connection failure, its trace is the single
failed connection attempt, and no SQL statement — in particular no
`CREATE DATABASE` — was ever issued. -/
theorem c4_unreachable_no_create (w : World) (migs : List Nat) (host : String) (port : Nat)
    (user password : String) (uuid : Nat) (mp : String)
    (h : w.connectOk (mkTdb host port user password uuid).server_url = false) :
    TestDb.new w migs host port user password uuid mp
      = ([Action.connect (mkTdb host port user password uuid).server_url],
         Except.error (Panic.connectFailed (mkTdb host port user password uuid).server_url))
    ∧ ∀ u s, Action.exec u s ∉ (TestDb.new w migs host port user password uuid mp).1 := by
  have he : TestDb.new w migs host port user password uuid mp
      = ([Action.connect (mkTdb host port user password uuid).server_url],
         Except.error (Panic.connectFailed (mkTdb host port user password uuid).server_url)) := by
    unfold TestDb.new
    dsimp only
    rw [show w.connectOk (TestDb.server_url ⟨host, port, user, password, mkDbname uuid⟩)
          = false from h]
    rfl
  refine ⟨he, fun u s hm => ?_⟩
  rw [he] at hm
  simp only [List.mem_singleton] at hm
  exact Action.noConfusion hm

theorem c4_unreachable_no_create_witness :
    (TestDb.new wDown [] "h" 1 "u" "p" 0 "m").2
      = Except.error (Panic.connectFailed (mkTdb "h" 1 "u" "p" 0).server_url) := by
  have h := (c4_unreachable_no_create wDown [] "h" 1 "u" "p" 0 "m" rfl).1
  rw [h]

/-- C5.  A failing revert step aborts the migration run at once with the
underlying database error, a failing apply step likewise surfaces the
underlying error, and construction only ever returns an instance whose
migration run succeeded: a failed migration makes construction fail with
that same underlying error. -/
theorem c5_migration_failure_fatal (w : World) (url : String) (migs applied : List Nat)
    (e : String) (host : String) (port : Nat) (user password : String) (uuid : Nat)
    (mp : String) :
    (w.revertErr url = some e →
      run_migrations w url migs applied = ([Action.revertAll url], Except.error e))
    ∧ (w.revertErr url = none → w.pendingErr url = some e →
      run_migrations w url migs applied
        = ([Action.revertAll url, Action.runPending url], Except.error e))
    ∧ (∀ t, (TestDb.new w migs host port user password uuid mp).2 = Except.ok t →
      (run_migrations w (mkTdb host port user password uuid).url migs []).2
        = Except.ok (run_pending_migrations migs []))
    ∧ (∀ e2, w.connectOk (mkTdb host port user password uuid).server_url = true →
        w.execOk (mkTdb host port user password uuid).server_url
          (createStmt (mkDbname uuid)) = true →
        w.connectOk (mkTdb host port user password uuid).url = true →
        (run_migrations w (mkTdb host port user password uuid).url migs []).2
          = Except.error e2 →
        (TestDb.new w migs host port user password uuid mp).2
          = Except.error (Panic.migrationFailed e2)) := by
  refine ⟨?_, ?_, ?_, ?_⟩
  · intro h; unfold run_migrations; rw [h]
  · intro h1 h2; unfold run_migrations; rw [h1, h2]
  · intro t ht
    unfold TestDb.new at ht
    dsimp only at ht
    dsimp only [mkTdb]
    cases h1 : w.connectOk (TestDb.server_url ⟨host, port, user, password, mkDbname uuid⟩) <;>
      rw [h1] at ht
    · exact Except.noConfusion ht
    · cases h2 : w.execOk (TestDb.server_url ⟨host, port, user, password, mkDbname uuid⟩)
          (createStmt (mkDbname uuid)) <;> rw [h2] at ht
      · exact Except.noConfusion ht
      · cases h3 : w.connectOk (TestDb.url ⟨host, port, user, password, mkDbname uuid⟩) <;>
          rw [h3] at ht
        · exact Except.noConfusion ht
        · dsimp only at ht
          cases hm : (run_migrations w
              (TestDb.url ⟨host, port, user, password, mkDbname uuid⟩) migs []).2 <;>
            rw [hm] at ht
          · exact Except.noConfusion ht
          · rename_i s
            have hs := run_migrations_ok_val w _ migs [] s hm
            rw [hs]
            rfl
  · intro e2 h1 h2 h3 hr
    dsimp only [mkTdb] at hr
    unfold TestDb.new
    dsimp only
    rw [show w.connectOk (TestDb.server_url ⟨host, port, user, password, mkDbname uuid⟩)
          = true from h1,
        show w.execOk (TestDb.server_url ⟨host, port, user, password, mkDbname uuid⟩)
          (createStmt (mkDbname uuid)) = true from h2,
        show w.connectOk (TestDb.url ⟨host, port, user, password, mkDbname uuid⟩)
          = true from h3]
    dsimp only
    rw [show (run_migrations w (TestDb.url ⟨host, port, user, password, mkDbname uuid⟩)
          migs []).2 = Except.error e2 from hr]

theorem c5_migration_failure_fatal_witness :
    run_migrations wRevertFail "u" [3] []
      = ([Action.revertAll "u"], Except.error "boom")
    ∧ (TestDb.new wRevertFail [3] "h" 1 "u2" "p" 0 "m").2
      = Except.error (Panic.migrationFailed "boom") :=
  ⟨(c5_migration_failure_fatal wRevertFail "u" [3] [] "boom" "h" 1 "u2" "p" 0 "m").1 rfl,
   (c5_migration_failure_fatal wRevertFail
      (mkTdb "h" 1 "u2" "p" 0).url [3] [] "boom" "h" 1 "u2" "p" 0 "m").2.2.2
     "boom" rfl rfl rfl rfl⟩

theorem hexSeg_digit_eq {n m : Nat} (start len : Nat)
    (h : hexSeg n start len = hexSeg m start len) :
    ∀ i < len, nib n (31 - (start + i)) = nib m (31 - (start + i)) := by
  intro i hi
  have hp := list_map_pointwise (List.range len) h i (List.mem_range.mpr hi)
  exact hexChar_inj_below _ (nib_lt _ _) _ (nib_lt _ _) hp

theorem uuidChars_digits_eq {n m : Nat} (h : uuidChars n = uuidChars m) :
    ∀ j < 32, nib n j = nib m j := by
  unfold uuidChars at h
  obtain ⟨hL, h5⟩ := List.append_inj' h (by simp [hexSeg_length])
  injection h5 with _ h5s
  obtain ⟨hL2, h4⟩ := List.append_inj' hL (by simp [hexSeg_length])
  injection h4 with _ h4s
  obtain ⟨hL3, h3⟩ := List.append_inj' hL2 (by simp [hexSeg_length])
  injection h3 with _ h3s
  obtain ⟨h1, h2⟩ := List.append_inj' hL3 (by simp [hexSeg_length])
  injection h2 with _ h2s
  have d1 := hexSeg_digit_eq 0 8 h1
  have d2 := hexSeg_digit_eq 8 4 h2s
  have d3 := hexSeg_digit_eq 12 4 h3s
  have d4 := hexSeg_digit_eq 16 4 h4s
  have d5 := hexSeg_digit_eq 20 12 h5s
  intro j hj
  by_cases c1 : 24 ≤ j
  · have hv := d1 (31 - j) (by omega)
    rwa [show 31 - (0 + (31 - j)) = j from by omega] at hv
  by_cases c2 : 20 ≤ j
  · have hv := d2 (23 - j) (by omega)
    rwa [show 31 - (8 + (23 - j)) = j from by omega] at hv
  by_cases c3 : 16 ≤ j
  · have hv := d3 (19 - j) (by omega)
    rwa [show 31 - (12 + (19 - j)) = j from by omega] at hv
  by_cases c4 : 12 ≤ j
  · have hv := d4 (15 - j) (by omega)
    rwa [show 31 - (16 + (15 - j)) = j from by omega] at hv
  · have hv := d5 (11 - j) (by omega)
    rwa [show 31 - (20 + (11 - j)) = j from by omega] at hv

theorem uuid_val_eq {n m : Nat} (hn : n < 2 ^ 128) (hm : m < 2 ^ 128)
    (h : uuidChars n = uuidChars m) : n = m := by
  have hd := uuidChars_digits_eq h
  have hmap : ((List.range 32).map fun j => nib n j)
      = (List.range 32).map fun j => nib m j :=
    list_map_congr _ (fun j hj => hd j (List.mem_range.mp hj))
  have h1 := ofDigits_nib n 32
  have h2 := ofDigits_nib m 32
  rw [hmap] at h1
  have hpow : (16 : Nat) ^ 32 = 2 ^ 128 := by norm_num
  have hmod : n % 16 ^ 32 = m % 16 ^ 32 := h1.symm.trans h2
  rwa [Nat.mod_eq_of_lt (by rw [hpow]; exact hn),
    Nat.mod_eq_of_lt (by rw [hpow]; exact hm)] at hmod

theorem mkDbname_inj {n m : Nat} (hn : n < 2 ^ 128) (hm : m < 2 ^ 128)
    (h : mkDbname n = mkDbname m) : n = m := by
  unfold mkDbname uuidString at h
  have hd := congrArg String.data h
  rw [String.data_append, String.data_append] at hd
  have hd2 : uuidChars n = uuidChars m := List.append_cancel_left hd
  exact uuid_val_eq hn hm hd2

/-- C9.  Identity generation is a total function of the drawn 128-bit
identifier — it has no failure mode — the generated name is the fixed-width
textual (hyphenated hexadecimal) encoding of that identifier behind the
`test_` marker, and the encoding is injective: distinct 128-bit identifiers
always yield distinct database names. -/
theorem c9_identity_injective (n m : Nat) (hn : n < 2 ^ 128) (hm : m < 2 ^ 128)
    (hne : n ≠ m) :
    mkDbname n ≠ mkDbname m ∧ (mkDbname n).length = 41 := by
  refine ⟨fun h => hne (mkDbname_inj hn hm h), ?_⟩
  have hl : (mkDbname n).length = 5 + (uuidChars n).length := by
    rw [mkDbname, String.length_append]
    rfl
  rw [hl, uuidChars_length]

theorem c9_identity_injective_witness :
    (0 : Nat) < 2 ^ 128 ∧ (1 : Nat) < 2 ^ 128 ∧ mkDbname 0 ≠ mkDbname 1 :=
  ⟨by norm_num, by norm_num,
   (c9_identity_injective 0 1 (by norm_num) (by norm_num) (by norm_num)).1⟩

end DieselDatabaseTester
